import Mathlib

/-!
Verification of the market-data service (src/services/marketDataService.js).

JavaScript numbers are modelled as exact rationals (ℚ); `null` for a
number-or-null value is modelled as `Option ℚ`.  Timestamps are modelled as
the underlying epoch instant in milliseconds (`Int`): the source stores
ISO-8601 strings produced by `new Date(ms).toISOString()`, whose ordering and
equality agree with the ordering and equality of the instants.
-/

namespace MarketData

/-! ## Indicator engine (marketDataService.js lines 596-712) -/

/-- One step of the per-change state used by `calculateRSI`
(lines 652-658).  State: (avgGain, avgLoss, rsiValues).  The source pushes
each RSI value onto `rsiValues` and finally reads the last element. -/
def wilderStep (period : Nat) (s : ℚ × ℚ × List ℚ) (c : ℚ) : ℚ × ℚ × List ℚ :=
  let avgGain := (s.1 * ((period : ℚ) - 1) + (if c > 0 then c else 0)) / (period : ℚ)
  let avgLoss := (s.2.1 * ((period : ℚ) - 1) + (if c < 0 then |c| else 0)) / (period : ℚ)
  let rs := avgGain / (if avgLoss = 0 then 1 / 1000 else avgLoss)
  (avgGain, avgLoss, s.2.2 ++ [100 - 100 / (1 + rs)])

/-- `calculateRSI(prices, period)` (lines 628-661).  Returns `none` for the
JS `null`. -/
def calculateRSI (prices : List ℚ) (period : Nat) : Option ℚ :=
  if prices.length < period + 1 then
    none
  else
    -- for (let i = 1; i < prices.length; i++) changes.push(prices[i] - prices[i-1])
    let changes := List.zipWith (fun b a => b - a) prices.tail prices
    let gains := changes.map (fun c => if c > 0 then c else 0)
    let losses := changes.map (fun c => if c < 0 then |c| else 0)
    let avgGain := (gains.take period).sum / (period : ℚ)
    let avgLoss := (losses.take period).sum / (period : ℚ)
    let rs := avgGain / (if avgLoss = 0 then 1 / 1000 else avgLoss)
    let rsiValues := [100 - 100 / (1 + rs)]
    let final := (changes.drop period).foldl (wilderStep period) (avgGain, avgLoss, rsiValues)
    -- return rsiValues[rsiValues.length - 1]
    final.2.2.getLast?

/-- `calculateEMA(prices, period)` (lines 669-687). -/
def calculateEMA (prices : List ℚ) (period : Nat) : Option ℚ :=
  if prices.length < period then
    none
  else
    let sma := (prices.take period).sum / (period : ℚ)
    let multiplier := 2 / ((period : ℚ) + 1)
    -- for (let i = period; i < prices.length; i++) ema = (prices[i] - ema) * multiplier + ema
    some ((prices.drop period).foldl (fun ema p => (p - ema) * multiplier + ema) sma)

structure MACDResult where
  macdLine : Option ℚ
  signalLine : Option ℚ
  histogram : Option ℚ
deriving DecidableEq

/-- `calculateMACD(prices)` (lines 694-712).  The source computes
`const macdLine = ema12 - ema26` where either operand may be `null`:
JavaScript subtraction coerces `null` to `0` and always yields a number,
modelled by `Option.getD _ 0`. -/
def calculateMACD (prices : List ℚ) : MACDResult :=
  let ema12 := calculateEMA prices 12
  let ema26 := calculateEMA prices 26
  let macdLine := ema12.getD 0 - ema26.getD 0
  { macdLine := some macdLine, signalLine := none, histogram := none }

/-- A canonical bar of a price series (§3 of the design).  `open` is a Lean
keyword, hence the field name `open_`. -/
structure Bar where
  timestamp : Int
  open_ : ℚ
  high : ℚ
  low : ℚ
  close : ℚ
  volume : ℚ
deriving DecidableEq

structure IndicatorSet where
  rsi : Option ℚ
  emaShort : Option ℚ
  emaLong : Option ℚ
  macd : MACDResult
deriving DecidableEq

/-- `calculateIndicators(prices)` (lines 596-620).  The source returns the
empty object when `!prices || prices.length === 0`; the absent-input case is
the `none` input and the empty object is the `none` result. -/
def calculateIndicators (prices : Option (List Bar)) : Option IndicatorSet :=
  match prices with
  | none => none
  | some l =>
    if l.isEmpty then
      none
    else
      let closePrices := l.map Bar.close
      some
        { rsi := calculateRSI closePrices 14
          emaShort := calculateEMA closePrices 12
          emaLong := calculateEMA closePrices 26
          macd := calculateMACD closePrices }

/-- Boolean summary of an indicator result used to state the concrete
50-bar test of the spec. -/
def indicatorsShape (o : Option IndicatorSet) : Bool :=
  match o with
  | none => false
  | some s =>
    s.rsi.isSome && s.emaShort.isSome && s.emaLong.isSome &&
      s.macd.macdLine.isSome && s.macd.signalLine.isNone && s.macd.histogram.isNone

/-- A 50-bar daily series with closes 1, 2, ..., 50. -/
def bars50 : List Bar :=
  (List.range 50).map (fun i =>
    { timestamp := (i : Int), open_ := 0, high := 0, low := 0,
      close := (i : ℚ) + 1, volume := 0 })

/-- The list [1, 2, ..., period] of rationals. -/
def oneTo (period : Nat) : List ℚ :=
  (List.range period).map (fun i : Nat => (i : ℚ) + 1)

/-! ## Historical-data adapters (lines 307-478)

Each adapter performs an HTTP request and then reshapes the upstream
payload; only the reshaping is logic, so the embedding takes the upstream
payload as an argument.  The interval-to-native-resolution tables only shape
the request URL and do not touch the returned data. -/

structure PriceSeries where
  symbol : String
  interval : String
  data : List Bar
  source : String
deriving DecidableEq

/-- The Finnhub candle payload `response.data`: parallel arrays indexed
together by the loop over `response.data.t` (lines 332-342).  A well-formed
payload has all six arrays of equal length; out-of-range reads (JS
`undefined`) are modelled by `getD _ 0`, which no claim depends on. -/
structure FinnhubCandles where
  t : List Int
  o : List ℚ
  h : List ℚ
  l : List ℚ
  c : List ℚ
  v : List ℚ
deriving DecidableEq

/-- `getHistoricalDataFinnhub` (lines 307-350): one bar per index of the
upstream `t` array, in upstream order — the source never sorts here.
`new Date(t[i] * 1000).toISOString()` becomes the instant `t[i] * 1000`. -/
def getHistoricalDataFinnhub (symbol interval : String) (resp : FinnhubCandles) : PriceSeries :=
  { symbol := symbol
    interval := interval
    data := (List.range resp.t.length).map (fun i =>
      { timestamp := resp.t.getD i 0 * 1000
        open_ := resp.o.getD i 0
        high := resp.h.getD i 0
        low := resp.l.getD i 0
        close := resp.c.getD i 0
        volume := resp.v.getD i 0 })
    source := "finnhub" }

/-- One key/value pair of the Alpha Vantage time-series object, in the
object's iteration order; `date` is the parsed key (`new Date(date)`) as an
epoch instant, and the five fields are the already-parsed numbers. -/
structure AVEntry where
  date : Int
  open_ : ℚ
  high : ℚ
  low : ℚ
  close : ℚ
  volume : ℚ
deriving DecidableEq

/-- `getHistoricalDataAlphaVantage` (lines 360-419): filter the entries to
the inclusive [fromDate, toDate] window, then
`data.sort((a, b) => new Date(a.timestamp) - new Date(b.timestamp))` —
a stable ascending sort by timestamp, modelled by `List.mergeSort`. -/
def getHistoricalDataAlphaVantage (symbol interval : String) (fromDate toDate : Int)
    (entries : List AVEntry) : PriceSeries :=
  let data := (entries.filter (fun e => decide (fromDate ≤ e.date ∧ e.date ≤ toDate))).map
    (fun e =>
      { timestamp := e.date
        open_ := e.open_
        high := e.high
        low := e.low
        close := e.close
        volume := e.volume })
  { symbol := symbol
    interval := interval
    data := data.mergeSort (fun a b => decide (a.timestamp ≤ b.timestamp))
    source := "alphavantage" }

/-- One element of the Polygon aggregates `response.data.results`. -/
structure PolygonAgg where
  t : Int
  o : ℚ
  h : ℚ
  l : ℚ
  c : ℚ
  v : ℚ
deriving DecidableEq

/-- `getHistoricalDataPolygon` (lines 429-478): a plain `map` over
`response.data.results`, preserving upstream order — no sort. -/
def getHistoricalDataPolygon (symbol interval : String) (results : List PolygonAgg) :
    PriceSeries :=
  { symbol := symbol
    interval := interval
    data := results.map (fun item =>
      { timestamp := item.t
        open_ := item.o
        high := item.h
        low := item.l
        close := item.c
        volume := item.v })
    source := "polygon" }

/-! ## The service and its fallback router (lines 15-505)

The service instance holds the mutable default provider and, for each of the
four operations, the outcome each provider-specific adapter method would
produce for the fixed request at hand (the per-request arguments — symbol,
interval, from, to — are threaded unchanged through the fallback recursion,
so they are absorbed into these outcome functions).  Each router function
returns the list of adapter methods invoked, in order, together with the
value returned or error thrown. -/

structure Service (ε Q P H O : Type) where
  defaultProvider : String
  quoteApi : String → Except ε Q
  profileApi : String → Except ε P
  historicalApi : String → Except ε H
  optionsApi : String → Except ε O

/-- The `switch (provider)` of `getQuote` / `getCompanyProfile` /
`getHistoricalData` (lines 63-72, 171-180, 277-286): any unknown provider
string falls through to the Finnhub adapter. -/
def adapterFor (provider : String) : String :=
  match provider with
  | "finnhub" => "finnhub"
  | "alphavantage" => "alphavantage"
  | "polygon" => "polygon"
  | _ => "finnhub"

/-- The deterministic alternate of the quote/profile/historical fallback
(lines 77, 185, 291). -/
def altProvider (provider : String) : String :=
  if provider = "finnhub" then "alphavantage" else "finnhub"

/-- `getQuote(symbol, provider)` (lines 61-83).  On failure of the selected
adapter, recurses once onto the alternate provider if and only if the
selected provider equals the default provider. -/
def getQuote {ε Q P H O : Type} (provider : String) (svc : Service ε Q P H O) :
    List String × Except ε Q :=
  let a := adapterFor provider
  match svc.quoteApi a with
  | .ok q => ([a], .ok q)
  | .error e =>
    if hd : provider = svc.defaultProvider then
      let fallbackProvider := if provider = "finnhub" then "alphavantage" else "finnhub"
      let r := getQuote fallbackProvider svc
      (a :: r.1, r.2)
    else
      ([a], .error e)
termination_by (if provider = svc.defaultProvider then 1 else 0)
decreasing_by
  have hfb : (if provider = "finnhub" then "alphavantage" else "finnhub") ≠
      svc.defaultProvider := by
    rw [← hd]
    by_cases hf : provider = "finnhub"
    · subst hf; decide
    · simp only [if_neg hf]
      exact fun hh => hf hh.symm
  rw [hd] at hfb
  simp [hfb, hd]

/-- `getCompanyProfile(symbol, provider)` (lines 169-191): same structure as
`getQuote`. -/
def getCompanyProfile {ε Q P H O : Type} (provider : String) (svc : Service ε Q P H O) :
    List String × Except ε P :=
  let a := adapterFor provider
  match svc.profileApi a with
  | .ok q => ([a], .ok q)
  | .error e =>
    if hd : provider = svc.defaultProvider then
      let fallbackProvider := if provider = "finnhub" then "alphavantage" else "finnhub"
      let r := getCompanyProfile fallbackProvider svc
      (a :: r.1, r.2)
    else
      ([a], .error e)
termination_by (if provider = svc.defaultProvider then 1 else 0)
decreasing_by
  have hfb : (if provider = "finnhub" then "alphavantage" else "finnhub") ≠
      svc.defaultProvider := by
    rw [← hd]
    by_cases hf : provider = "finnhub"
    · subst hf; decide
    · simp only [if_neg hf]
      exact fun hh => hf hh.symm
  rw [hd] at hfb
  simp [hfb, hd]

/-- `getHistoricalData(symbol, interval, from, to, provider)` (lines
271-297): same fallback structure as `getQuote`; the date-string to
timestamp conversion only shapes the adapter arguments, which are absorbed
into `historicalApi`. -/
def getHistoricalData {ε Q P H O : Type} (provider : String) (svc : Service ε Q P H O) :
    List String × Except ε H :=
  let a := adapterFor provider
  match svc.historicalApi a with
  | .ok q => ([a], .ok q)
  | .error e =>
    if hd : provider = svc.defaultProvider then
      let fallbackProvider := if provider = "finnhub" then "alphavantage" else "finnhub"
      let r := getHistoricalData fallbackProvider svc
      (a :: r.1, r.2)
    else
      ([a], .error e)
termination_by (if provider = svc.defaultProvider then 1 else 0)
decreasing_by
  have hfb : (if provider = "finnhub" then "alphavantage" else "finnhub") ≠
      svc.defaultProvider := by
    rw [← hd]
    by_cases hf : provider = "finnhub"
    · subst hf; decide
    · simp only [if_neg hf]
      exact fun hh => hf hh.symm
  rw [hd] at hfb
  simp [hfb, hd]

/-- The `switch (provider)` of `getOptionsChain` (lines 488-495): there is
no `alphavantage` case, so any provider other than `finnhub` and `polygon`
falls through to the Finnhub adapter. -/
def optionsAdapterFor (provider : String) : String :=
  match provider with
  | "finnhub" => "finnhub"
  | "polygon" => "polygon"
  | _ => "finnhub"

/-- `getOptionsChain(symbol, provider)` (lines 486-505).  On failure,
recurses once onto `"polygon"` if and only if the selected provider equals
the default provider and is not already `"polygon"`. -/
def getOptionsChain {ε Q P H O : Type} (provider : String) (svc : Service ε Q P H O) :
    List String × Except ε O :=
  let a := optionsAdapterFor provider
  match svc.optionsApi a with
  | .ok q => ([a], .ok q)
  | .error e =>
    if hd : provider = svc.defaultProvider ∧ provider ≠ "polygon" then
      let r := getOptionsChain "polygon" svc
      (a :: r.1, r.2)
    else
      ([a], .error e)
termination_by (if provider = "polygon" then 0 else 1)
decreasing_by
  simp [hd.2]

/-- `setDefaultProvider(provider)` (lines 47-53): the thrown error is the
`Except.error` result, in which case no state update happens. -/
def setDefaultProvider {ε Q P H O : Type} (provider : String) (svc : Service ε Q P H O) :
    Except String (Service ε Q P H O) :=
  if provider ∈ ["finnhub", "alphavantage", "polygon"] then
    .ok { svc with defaultProvider := provider }
  else
    .error "Invalid provider. Choose from: finnhub, alphavantage, polygon"

/-! ## Concrete instances used by witnesses and counterexamples -/

/-- The invariant carried through the Wilder-smoothing fold of
`calculateRSI`: both running averages are nonnegative, and the accumulated
`rsiValues` list ends in a value within [0, 100]. -/
def rsiInv (s : ℚ × ℚ × List ℚ) : Prop :=
  0 ≤ s.1 ∧ 0 ≤ s.2.1 ∧ ∃ r, s.2.2.getLast? = some r ∧ 0 ≤ r ∧ r ≤ 100

/-- A service whose default provider (finnhub) fails every operation while
alphavantage succeeds. -/
def svcFinnhubDown : Service Unit String String String String :=
  { defaultProvider := "finnhub"
    quoteApi := fun a => if a = "alphavantage" then .ok "av-quote" else .error ()
    profileApi := fun a => if a = "alphavantage" then .ok "av-profile" else .error ()
    historicalApi := fun a => if a = "alphavantage" then .ok "av-series" else .error ()
    optionsApi := fun a => if a = "polygon" then .ok "polygon-chain" else .error () }

/-- A service whose default provider is polygon and whose every adapter
fails. -/
def svcAllDown : Service Unit String String String String :=
  { defaultProvider := "polygon"
    quoteApi := fun _ => .error ()
    profileApi := fun _ => .error ()
    historicalApi := fun _ => .error ()
    optionsApi := fun _ => .error () }

/-- A service whose finnhub adapter serves options chains. -/
def svcFinnhubOptionsUp : Service Unit String String String String :=
  { defaultProvider := "finnhub"
    quoteApi := fun _ => .error ()
    profileApi := fun _ => .error ()
    historicalApi := fun _ => .error ()
    optionsApi := fun a => if a = "finnhub" then .ok "finnhub-chain" else .error () }

/-- A Finnhub candle payload whose timestamps arrive out of order. -/
def fhCandlesCex : FinnhubCandles :=
  { t := [2, 1], o := [0, 0], h := [0, 0], l := [0, 0], c := [0, 0], v := [0, 0] }

/-- Three Alpha Vantage entries in reverse-chronological iteration order
(the order the upstream object delivers daily keys). -/
def avEntriesW : List AVEntry :=
  [ { date := 3, open_ := 1, high := 1, low := 1, close := 1, volume := 1 }
  , { date := 1, open_ := 2, high := 2, low := 2, close := 2, volume := 2 }
  , { date := 2, open_ := 3, high := 3, low := 3, close := 3, volume := 3 } ]

/-! ## Router lemmas -/

theorem getQuote_run_of_ne {ε Q P H O : Type} (provider : String) (svc : Service ε Q P H O)
    (hne : provider ≠ svc.defaultProvider) :
    getQuote provider svc = ([adapterFor provider], svc.quoteApi (adapterFor provider)) := by
  cases hq : svc.quoteApi (adapterFor provider) with
  | ok q => rw [getQuote, hq]
  | error e => rw [getQuote, hq]; simp [hne]

theorem getCompanyProfile_run_of_ne {ε Q P H O : Type} (provider : String)
    (svc : Service ε Q P H O) (hne : provider ≠ svc.defaultProvider) :
    getCompanyProfile provider svc =
      ([adapterFor provider], svc.profileApi (adapterFor provider)) := by
  cases hq : svc.profileApi (adapterFor provider) with
  | ok q => rw [getCompanyProfile, hq]
  | error e => rw [getCompanyProfile, hq]; simp [hne]

theorem getHistoricalData_run_of_ne {ε Q P H O : Type} (provider : String)
    (svc : Service ε Q P H O) (hne : provider ≠ svc.defaultProvider) :
    getHistoricalData provider svc =
      ([adapterFor provider], svc.historicalApi (adapterFor provider)) := by
  cases hq : svc.historicalApi (adapterFor provider) with
  | ok q => rw [getHistoricalData, hq]
  | error e => rw [getHistoricalData, hq]; simp [hne]

theorem altProvider_ne_default {ε Q P H O : Type} {provider : String} {svc : Service ε Q P H O}
    (hd : provider = svc.defaultProvider) : altProvider provider ≠ svc.defaultProvider := by
  rw [altProvider, ← hd]
  by_cases hf : provider = "finnhub"
  · subst hf; decide
  · simp only [if_neg hf]
    exact fun hh => hf hh.symm

theorem adapterFor_altProvider (p : String) : adapterFor (altProvider p) = altProvider p := by
  rw [altProvider]
  by_cases hf : p = "finnhub" <;> simp [hf] <;> rfl

theorem getQuote_default_fallback {ε Q P H O : Type} (provider : String)
    (svc : Service ε Q P H O) (hd : provider = svc.defaultProvider) (e : ε)
    (he : svc.quoteApi (adapterFor provider) = .error e) :
    getQuote provider svc =
      ([adapterFor provider, altProvider provider], svc.quoteApi (altProvider provider)) := by
  have h2 := getQuote_run_of_ne (altProvider provider) svc (altProvider_ne_default hd)
  rw [getQuote, he]
  simp only [dif_pos hd]
  rw [show (if provider = "finnhub" then "alphavantage" else "finnhub") =
        altProvider provider from rfl]
  rw [h2, adapterFor_altProvider]

theorem getCompanyProfile_default_fallback {ε Q P H O : Type} (provider : String)
    (svc : Service ε Q P H O) (hd : provider = svc.defaultProvider) (e : ε)
    (he : svc.profileApi (adapterFor provider) = .error e) :
    getCompanyProfile provider svc =
      ([adapterFor provider, altProvider provider], svc.profileApi (altProvider provider)) := by
  have h2 := getCompanyProfile_run_of_ne (altProvider provider) svc (altProvider_ne_default hd)
  rw [getCompanyProfile, he]
  simp only [dif_pos hd]
  rw [show (if provider = "finnhub" then "alphavantage" else "finnhub") =
        altProvider provider from rfl]
  rw [h2, adapterFor_altProvider]

theorem getHistoricalData_default_fallback {ε Q P H O : Type} (provider : String)
    (svc : Service ε Q P H O) (hd : provider = svc.defaultProvider) (e : ε)
    (he : svc.historicalApi (adapterFor provider) = .error e) :
    getHistoricalData provider svc =
      ([adapterFor provider, altProvider provider], svc.historicalApi (altProvider provider)) := by
  have h2 := getHistoricalData_run_of_ne (altProvider provider) svc (altProvider_ne_default hd)
  rw [getHistoricalData, he]
  simp only [dif_pos hd]
  rw [show (if provider = "finnhub" then "alphavantage" else "finnhub") =
        altProvider provider from rfl]
  rw [h2, adapterFor_altProvider]

theorem getOptionsChain_ok {ε Q P H O : Type} (provider : String) (svc : Service ε Q P H O)
    (r : O) (hq : svc.optionsApi (optionsAdapterFor provider) = .ok r) :
    getOptionsChain provider svc = ([optionsAdapterFor provider], .ok r) := by
  rw [getOptionsChain, hq]

theorem getOptionsChain_run_of_not {ε Q P H O : Type} (provider : String)
    (svc : Service ε Q P H O) (hng : ¬(provider = svc.defaultProvider ∧ provider ≠ "polygon")) :
    getOptionsChain provider svc =
      ([optionsAdapterFor provider], svc.optionsApi (optionsAdapterFor provider)) := by
  cases hq : svc.optionsApi (optionsAdapterFor provider) with
  | ok q => rw [getOptionsChain, hq]
  | error e => rw [getOptionsChain, hq]; simp only [dif_neg hng]

theorem getOptionsChain_default_fallback {ε Q P H O : Type} (provider : String)
    (svc : Service ε Q P H O) (hd : provider = svc.defaultProvider)
    (hnp : provider ≠ "polygon") (e : ε)
    (he : svc.optionsApi (optionsAdapterFor provider) = .error e) :
    getOptionsChain provider svc =
      ([optionsAdapterFor provider, "polygon"], svc.optionsApi "polygon") := by
  have hng : ¬(("polygon" : String) = svc.defaultProvider ∧ ("polygon" : String) ≠ "polygon") :=
    fun hc => hc.2 rfl
  have hg : provider = svc.defaultProvider ∧ provider ≠ "polygon" := ⟨hd, hnp⟩
  have h2 := getOptionsChain_run_of_not "polygon" svc hng
  rw [getOptionsChain, he]
  simp only [dif_pos hg]
  rw [h2]
  rfl

/-- C1: for every quote, profile, or historical request where the selected
provider equals the process-wide default and its adapter call fails, exactly
one fallback call occurs, to the deterministic alternate provider
(alphavantage if the primary is finnhub, else finnhub), and the fallback
call's outcome — its value or its error — is what the operation returns;
the invocation trace has exactly the two entries, so a second retry never
occurs. -/
theorem router_default_single_fallback {ε Q P H O : Type} (svc : Service ε Q P H O)
    (provider : String) (hd : provider = svc.defaultProvider) :
    (∀ e : ε, svc.quoteApi (adapterFor provider) = .error e →
      getQuote provider svc =
        ([adapterFor provider, altProvider provider], svc.quoteApi (altProvider provider))) ∧
    (∀ e : ε, svc.profileApi (adapterFor provider) = .error e →
      getCompanyProfile provider svc =
        ([adapterFor provider, altProvider provider], svc.profileApi (altProvider provider))) ∧
    (∀ e : ε, svc.historicalApi (adapterFor provider) = .error e →
      getHistoricalData provider svc =
        ([adapterFor provider, altProvider provider], svc.historicalApi (altProvider provider))) :=
  ⟨fun e he => getQuote_default_fallback provider svc hd e he,
   fun e he => getCompanyProfile_default_fallback provider svc hd e he,
   fun e he => getHistoricalData_default_fallback provider svc hd e he⟩

/-- Witness for C1 at a concrete service whose default (finnhub) fails all
three operations while alphavantage succeeds. -/
theorem router_default_single_fallback_witness :
    getQuote "finnhub" svcFinnhubDown =
      (["finnhub", altProvider "finnhub"], svcFinnhubDown.quoteApi (altProvider "finnhub")) ∧
    getCompanyProfile "finnhub" svcFinnhubDown =
      (["finnhub", altProvider "finnhub"], svcFinnhubDown.profileApi (altProvider "finnhub")) ∧
    getHistoricalData "finnhub" svcFinnhubDown =
      (["finnhub", altProvider "finnhub"], svcFinnhubDown.historicalApi (altProvider "finnhub")) :=
  ⟨(router_default_single_fallback svcFinnhubDown "finnhub" rfl).1 () rfl,
   (router_default_single_fallback svcFinnhubDown "finnhub" rfl).2.1 () rfl,
   (router_default_single_fallback svcFinnhubDown "finnhub" rfl).2.2 () rfl⟩

/-- C2 counterexample: pinning the provider that happens to be the default
("finnhub" here) is indistinguishable from defaulting, so when it fails a
fallback call to alphavantage IS made and its value — not the original
error — is returned, refuting the claim for this input. -/
theorem pinned_default_fallback_cex :
    svcFinnhubDown.defaultProvider = "finnhub" ∧
    svcFinnhubDown.quoteApi "finnhub" = .error () ∧
    getQuote "finnhub" svcFinnhubDown = (["finnhub", "alphavantage"], .ok "av-quote") :=
  ⟨rfl, rfl, getQuote_default_fallback "finnhub" svcFinnhubDown rfl () rfl⟩

/-- C2 amended: when the pinned provider differs from the current default
and its adapter call fails, no fallback call is made (the trace is the
single pinned adapter) and the original error propagates, for all four
operations.  When the pinned provider equals the default, the
implementation cannot distinguish explicit pinning from defaulting and the
single deterministic fallback runs (see the counterexample). -/
theorem pinned_nondefault_no_fallback {ε Q P H O : Type} (svc : Service ε Q P H O)
    (provider : String) (hne : provider ≠ svc.defaultProvider) :
    (∀ e : ε, svc.quoteApi (adapterFor provider) = .error e →
      getQuote provider svc = ([adapterFor provider], .error e)) ∧
    (∀ e : ε, svc.profileApi (adapterFor provider) = .error e →
      getCompanyProfile provider svc = ([adapterFor provider], .error e)) ∧
    (∀ e : ε, svc.historicalApi (adapterFor provider) = .error e →
      getHistoricalData provider svc = ([adapterFor provider], .error e)) ∧
    (∀ e : ε, svc.optionsApi (optionsAdapterFor provider) = .error e →
      getOptionsChain provider svc = ([optionsAdapterFor provider], .error e)) :=
  ⟨fun e he => by rw [getQuote_run_of_ne provider svc hne, he],
   fun e he => by rw [getCompanyProfile_run_of_ne provider svc hne, he],
   fun e he => by rw [getHistoricalData_run_of_ne provider svc hne, he],
   fun e he => by rw [getOptionsChain_run_of_not provider svc (fun hc => hne hc.1), he]⟩

/-- Witness for the amended C2: pinning "finnhub" while the default is
"polygon"; all four operations fail with the pinned adapter's error and a
one-entry trace. -/
theorem pinned_nondefault_no_fallback_witness :
    getQuote "finnhub" svcAllDown = (["finnhub"], .error ()) ∧
    getCompanyProfile "finnhub" svcAllDown = (["finnhub"], .error ()) ∧
    getHistoricalData "finnhub" svcAllDown = (["finnhub"], .error ()) ∧
    getOptionsChain "finnhub" svcAllDown = (["finnhub"], .error ()) :=
  ⟨(pinned_nondefault_no_fallback svcAllDown "finnhub" (by decide)).1 () rfl,
   (pinned_nondefault_no_fallback svcAllDown "finnhub" (by decide)).2.1 () rfl,
   (pinned_nondefault_no_fallback svcAllDown "finnhub" (by decide)).2.2.1 () rfl,
   (pinned_nondefault_no_fallback svcAllDown "finnhub" (by decide)).2.2.2 () rfl⟩

/-- C8: for every options-chain request where the selected provider equals
the default, is not polygon, and its adapter call fails, exactly one
fallback call is made and its target is always polygon; the returned value
is the polygon call's outcome. -/
theorem options_default_fallback_polygon {ε Q P H O : Type} (svc : Service ε Q P H O)
    (provider : String) (hd : provider = svc.defaultProvider) (hnp : provider ≠ "polygon") :
    ∀ e : ε, svc.optionsApi (optionsAdapterFor provider) = .error e →
      getOptionsChain provider svc =
        ([optionsAdapterFor provider, "polygon"], svc.optionsApi "polygon") :=
  fun e he => getOptionsChain_default_fallback provider svc hd hnp e he

/-- Witness for C8: default finnhub fails its options call, polygon serves
the fallback. -/
theorem options_default_fallback_polygon_witness :
    getOptionsChain "finnhub" svcFinnhubDown = (["finnhub", "polygon"], .ok "polygon-chain") :=
  options_default_fallback_polygon svcFinnhubDown "finnhub" rfl (by decide) () rfl

/-- C9 counterexample: an options-chain request explicitly pinned to
"alphavantage" (which has no options capability) is NOT surfaced as a
caller error: the dispatch switch's default branch sends it to the Finnhub
adapter, whose chain is returned. -/
theorem options_alphavantage_cex :
    getOptionsChain "alphavantage" svcFinnhubOptionsUp = (["finnhub"], .ok "finnhub-chain") :=
  getOptionsChain_ok "alphavantage" svcFinnhubOptionsUp "finnhub-chain" rfl

/-- C9 amended: a request pinned to "alphavantage" raises no capability
error; it is dispatched to the Finnhub adapter.  A successful Finnhub call's
chain is returned; a failing one propagates its error with no retry when
"alphavantage" is not the default, and falls back once to polygon when it
is. -/
theorem options_alphavantage_spec {ε Q P H O : Type} (svc : Service ε Q P H O) :
    optionsAdapterFor "alphavantage" = "finnhub" ∧
    (∀ r : O, svc.optionsApi "finnhub" = .ok r →
      getOptionsChain "alphavantage" svc = (["finnhub"], .ok r)) ∧
    (("alphavantage" : String) ≠ svc.defaultProvider →
      ∀ e : ε, svc.optionsApi "finnhub" = .error e →
        getOptionsChain "alphavantage" svc = (["finnhub"], .error e)) ∧
    (("alphavantage" : String) = svc.defaultProvider →
      ∀ e : ε, svc.optionsApi "finnhub" = .error e →
        getOptionsChain "alphavantage" svc = (["finnhub", "polygon"], svc.optionsApi "polygon")) :=
  ⟨rfl,
   fun r hr => getOptionsChain_ok "alphavantage" svc r hr,
   fun hne e he => by
     rw [getOptionsChain_run_of_not "alphavantage" svc (fun hc => hne hc.1)]
     rw [show optionsAdapterFor "alphavantage" = "finnhub" from rfl, he],
   fun hd e he => getOptionsChain_default_fallback "alphavantage" svc hd (by decide) e he⟩

/-- Witness for the amended C9: pinned "alphavantage" with a dead Finnhub
adapter and default polygon — the Finnhub error propagates with a one-entry
trace. -/
theorem options_alphavantage_spec_witness :
    optionsAdapterFor "alphavantage" = "finnhub" ∧
    getOptionsChain "alphavantage" svcAllDown = (["finnhub"], .error ()) :=
  ⟨(options_alphavantage_spec svcAllDown).1,
   (options_alphavantage_spec svcAllDown).2.2.1 (by decide) () rfl⟩

/-- C10: setDefaultProvider succeeds and updates the stored default
provider exactly for "finnhub", "alphavantage", "polygon"; any other string
produces the error (so no updated state is ever returned), and a successful
update changes only the defaultProvider field. -/
theorem set_default_provider_spec {ε Q P H O : Type} (svc : Service ε Q P H O) (p : String) :
    (p = "finnhub" ∨ p = "alphavantage" ∨ p = "polygon" →
      setDefaultProvider p svc = .ok { svc with defaultProvider := p }) ∧
    (¬(p = "finnhub" ∨ p = "alphavantage" ∨ p = "polygon") →
      setDefaultProvider p svc =
        .error "Invalid provider. Choose from: finnhub, alphavantage, polygon") ∧
    (∀ svc', setDefaultProvider p svc = .ok svc' →
      svc'.defaultProvider = p ∧ svc'.quoteApi = svc.quoteApi ∧
        svc'.profileApi = svc.profileApi ∧ svc'.historicalApi = svc.historicalApi ∧
        svc'.optionsApi = svc.optionsApi) := by
  refine ⟨?_, ?_, ?_⟩
  · intro h
    rw [setDefaultProvider, if_pos (by simpa using h)]
  · intro h
    rw [setDefaultProvider, if_neg (by simpa using h)]
  · intro svc' h
    rw [setDefaultProvider] at h
    split at h
    · cases h
      exact ⟨rfl, rfl, rfl, rfl, rfl⟩
    · cases h

/-- Witness for C10: a valid and an invalid provider string against a
concrete service. -/
theorem set_default_provider_spec_witness :
    setDefaultProvider "alphavantage" svcAllDown =
      .ok { svcAllDown with defaultProvider := "alphavantage" } ∧
    setDefaultProvider "yahoo" svcAllDown =
      .error "Invalid provider. Choose from: finnhub, alphavantage, polygon" :=
  ⟨(set_default_provider_spec svcAllDown "alphavantage").1 (Or.inr (Or.inl rfl)),
   (set_default_provider_spec svcAllDown "yahoo").2.1 (by decide)⟩

/-! ## Indicator engine lemmas -/

set_option maxRecDepth 10000

theorem calculateEMA_length_eq (values : List ℚ) (period : Nat)
    (h : values.length = period) :
    calculateEMA values period = some (values.sum / (period : ℚ)) := by
  subst h
  rw [calculateEMA, if_neg (lt_irrefl _), List.take_length, List.drop_length]
  simp

/-- C6: calculateEMA returns null iff the list has fewer than period
samples, and on the list [1, ..., period] of length exactly period the
returned EMA is the arithmetic mean of the full list (the recurrence runs
zero times).  The restriction 1 ≤ period keeps the statement within
JS-faithful territory (period = 0 would divide by zero upstream). -/
theorem ema_spec (values : List ℚ) (period : Nat) :
    (calculateEMA values period = none ↔ values.length < period) ∧
    (1 ≤ period →
      calculateEMA (oneTo period) period =
        some ((oneTo period).sum / ((oneTo period).length : ℚ))) := by
  constructor
  · rw [calculateEMA]
    split
    · rename_i h
      simp [h]
    · rename_i h
      simp [h]
  · intro _hp
    have hlen : (oneTo period).length = period := by
      rw [oneTo, List.length_map, List.length_range]
    rw [calculateEMA_length_eq _ _ hlen, hlen]

/-- Witness for C6 at period 5. -/
theorem ema_spec_witness :
    (calculateEMA (oneTo 5) 5 = none ↔ (oneTo 5).length < 5) ∧
    calculateEMA (oneTo 5) 5 = some ((oneTo 5).sum / ((oneTo 5).length : ℚ)) :=
  ⟨(ema_spec (oneTo 5) 5).1, (ema_spec (oneTo 5) 5).2 (by decide)⟩

/-- C4 counterexample: a 20-sample list (fewer than 26, so EMA(26) is null);
the claim says macdLine must be null there, but the code's null-coercing
subtraction makes it a number. -/
theorem macd_line_not_null_cex :
    (oneTo 20).length = 20 ∧ calculateEMA (oneTo 20) 26 = none ∧
    (calculateMACD (oneTo 20)).macdLine ≠ none :=
  ⟨by decide, by decide, by decide⟩

/-- C4 amended: signalLine and histogram are always null; macdLine is always
a number — `some` of the difference of the two EMAs with a null EMA
coerced to 0 — and in particular equals some (a − b) whenever both EMAs are
non-null (which the original claim asserted); it is never null, not even
when an EMA is. -/
theorem macd_spec (prices : List ℚ) :
    (calculateMACD prices).signalLine = none ∧
    (calculateMACD prices).histogram = none ∧
    (calculateMACD prices).macdLine =
      some ((calculateEMA prices 12).getD 0 - (calculateEMA prices 26).getD 0) ∧
    (∀ a b : ℚ, calculateEMA prices 12 = some a → calculateEMA prices 26 = some b →
      (calculateMACD prices).macdLine = some (a - b)) := by
  refine ⟨rfl, rfl, rfl, ?_⟩
  intro a b ha hb
  simp [calculateMACD, ha, hb]

/-- Witness for C4 on a constant 26-sample series (both EMAs equal 5). -/
theorem macd_spec_witness :
    (calculateMACD (List.replicate 26 (5 : ℚ))).signalLine = none ∧
    (calculateMACD (List.replicate 26 (5 : ℚ))).histogram = none ∧
    (calculateMACD (List.replicate 26 (5 : ℚ))).macdLine = some (5 - 5) :=
  ⟨(macd_spec _).1, (macd_spec _).2.1,
   (macd_spec _).2.2.2 5 5 (by with_unfolding_all rfl) (by with_unfolding_all rfl)⟩

/-- C7: calculateIndicators returns the empty mapping exactly when the
series is absent or empty; on every non-empty series it returns the four
fields computed from the extracted closes with periods 14/12/26; and on the
concrete 50-bar series rsi, emaShort and emaLong are non-null while macd
has a macdLine with null signalLine and histogram. -/
theorem indicators_spec (prices : Option (List Bar)) :
    (calculateIndicators prices = none ↔ prices = none ∨ prices = some []) ∧
    (∀ l, prices = some l → l ≠ [] →
      calculateIndicators prices = some
        { rsi := calculateRSI (l.map Bar.close) 14
          emaShort := calculateEMA (l.map Bar.close) 12
          emaLong := calculateEMA (l.map Bar.close) 26
          macd := calculateMACD (l.map Bar.close) }) ∧
    (bars50.length = 50 ∧ indicatorsShape (calculateIndicators (some bars50)) = true) := by
  refine ⟨?_, ?_, by decide, by decide⟩
  · cases prices with
    | none => simp [calculateIndicators]
    | some l =>
      simp only [calculateIndicators]
      split
      · rename_i h
        simp_all [List.isEmpty_iff]
      · rename_i h
        simp_all [List.isEmpty_iff]
  · intro l hl hne
    subst hl
    simp [calculateIndicators, List.isEmpty_iff, hne]

/-- Witness for C7 at the 50-bar series. -/
theorem indicators_spec_witness :
    (calculateIndicators (some bars50) = none ↔
      (some bars50 : Option (List Bar)) = none ∨ some bars50 = some []) ∧
    calculateIndicators (some bars50) = some
      { rsi := calculateRSI (bars50.map Bar.close) 14
        emaShort := calculateEMA (bars50.map Bar.close) 12
        emaLong := calculateEMA (bars50.map Bar.close) 26
        macd := calculateMACD (bars50.map Bar.close) } :=
  ⟨(indicators_spec (some bars50)).1,
   (indicators_spec (some bars50)).2.1 bars50 rfl (by decide)⟩

/-! ## RSI range -/

theorem rsi_value_bounds (g l : ℚ) (hg : 0 ≤ g) (hl : 0 ≤ l) :
    0 ≤ 100 - 100 / (1 + g / (if l = 0 then 1 / 1000 else l)) ∧
    100 - 100 / (1 + g / (if l = 0 then 1 / 1000 else l)) ≤ 100 := by
  have hd : (0 : ℚ) < (if l = 0 then 1 / 1000 else l) := by
    split
    · norm_num
    · rename_i h
      exact lt_of_le_of_ne hl (Ne.symm h)
  have hrs : 0 ≤ g / (if l = 0 then 1 / 1000 else l) := div_nonneg hg hd.le
  constructor
  · have h1 : 100 / (1 + g / (if l = 0 then 1 / 1000 else l)) ≤ 100 :=
      div_le_self (by norm_num) (by linarith)
    linarith
  · have h2 : 0 ≤ 100 / (1 + g / (if l = 0 then 1 / 1000 else l)) :=
      div_nonneg (by norm_num) (by linarith)
    linarith

theorem wilderStep_inv (period : Nat) (hp : 1 ≤ period) (s : ℚ × ℚ × List ℚ) (c : ℚ)
    (h : rsiInv s) : rsiInv (wilderStep period s c) := by
  obtain ⟨hg, hl, -⟩ := h
  have hpq : (0 : ℚ) ≤ (period : ℚ) := by positivity
  have hpm : (0 : ℚ) ≤ (period : ℚ) - 1 := by
    have h1 : (1 : ℚ) ≤ (period : ℚ) := by exact_mod_cast hp
    linarith
  have hgain : (0 : ℚ) ≤ (if c > 0 then c else 0) := by
    split
    · rename_i hc
      exact le_of_lt hc
    · exact le_refl 0
  have hloss : (0 : ℚ) ≤ (if c < 0 then |c| else 0) := by
    split
    · exact abs_nonneg c
    · exact le_refl 0
  have hg' : 0 ≤ (s.1 * ((period : ℚ) - 1) + (if c > 0 then c else 0)) / (period : ℚ) :=
    div_nonneg (add_nonneg (mul_nonneg hg hpm) hgain) hpq
  have hl' : 0 ≤ (s.2.1 * ((period : ℚ) - 1) + (if c < 0 then |c| else 0)) / (period : ℚ) :=
    div_nonneg (add_nonneg (mul_nonneg hl hpm) hloss) hpq
  exact ⟨hg', hl', _, List.getLast?_concat _,
    (rsi_value_bounds _ _ hg' hl').1, (rsi_value_bounds _ _ hg' hl').2⟩

theorem foldl_wilder_inv (period : Nat) (hp : 1 ≤ period) (cs : List ℚ) :
    ∀ s, rsiInv s → rsiInv (cs.foldl (wilderStep period) s) := by
  induction cs with
  | nil =>
    intro s h
    simpa using h
  | cons c cs ih =>
    intro s h
    rw [List.foldl_cons]
    exact ih _ (wilderStep_inv period hp s c h)

theorem take_map_sum_nonneg (changes : List ℚ) (period : Nat) (f : ℚ → ℚ)
    (hf : ∀ c, 0 ≤ f c) : 0 ≤ ((changes.map f).take period).sum := by
  apply List.sum_nonneg
  intro x hx
  obtain ⟨c, -, rfl⟩ := List.mem_map.mp (List.mem_of_mem_take hx)
  exact hf c

theorem rsi_body_bounded (changes : List ℚ) (g0 l0 : ℚ) (hg0 : 0 ≤ g0) (hl0 : 0 ≤ l0) :
    ∃ r, (List.foldl (wilderStep 14) (g0, l0,
        [100 - 100 / (1 + g0 / (if l0 = 0 then 1 / 1000 else l0))]) changes).2.2.getLast? =
      some r ∧ 0 ≤ r ∧ r ≤ 100 := by
  have hinv := foldl_wilder_inv 14 (by norm_num) changes
    (g0, l0, [100 - 100 / (1 + g0 / (if l0 = 0 then 1 / 1000 else l0))])
    ⟨hg0, hl0, _, rfl, (rsi_value_bounds g0 l0 hg0 hl0).1, (rsi_value_bounds g0 l0 hg0 hl0).2⟩
  exact hinv.2.2

theorem calculateRSI_cases (prices : List ℚ) :
    (prices.length < 15 ∧ calculateRSI prices 14 = none) ∨
    (15 ≤ prices.length ∧ ∃ r, calculateRSI prices 14 = some r ∧ 0 ≤ r ∧ r ≤ 100) := by
  rw [calculateRSI]
  split
  · rename_i h
    exact Or.inl ⟨h, rfl⟩
  · rename_i h
    refine Or.inr ⟨by omega, ?_⟩
    exact rsi_body_bounded _ _ _
      (div_nonneg (take_map_sum_nonneg _ 14 _ (fun c => by
        split
        · rename_i hc
          exact le_of_lt hc
        · exact le_refl 0)) (by norm_num))
      (div_nonneg (take_map_sum_nonneg _ 14 _ (fun c => by
        split
        · exact abs_nonneg c
        · exact le_refl 0)) (by norm_num))

/-- C5: calculateRSI with period 14 returns null iff the list has fewer
than 15 samples, and every non-null value it returns lies in [0, 100]. -/
theorem rsi_spec (prices : List ℚ) (v : ℚ) :
    (calculateRSI prices 14 = none ↔ prices.length < 15) ∧
    (calculateRSI prices 14 = some v → 0 ≤ v ∧ v ≤ 100) := by
  rcases calculateRSI_cases prices with ⟨h1, h2⟩ | ⟨h1, r, h2, h3, h4⟩
  · refine ⟨by simp [h2, h1], ?_⟩
    intro hv
    rw [h2] at hv
    cases hv
  · constructor
    · rw [h2]
      constructor
      · intro hx
        cases hx
      · intro hx
        omega
    · intro hv
      rw [h2] at hv
      have hrv := Option.some_inj.mp hv
      subst hrv
      exact ⟨h3, h4⟩

/-- Witness for C5 on a constant 15-sample series, whose RSI is 0. -/
theorem rsi_spec_witness :
    (calculateRSI (List.replicate 15 (1 : ℚ)) 14 = none ↔
      (List.replicate 15 (1 : ℚ)).length < 15) ∧
    (0 ≤ (0 : ℚ) ∧ (0 : ℚ) ≤ 100) :=
  ⟨(rsi_spec (List.replicate 15 (1 : ℚ)) 0).1,
   (rsi_spec (List.replicate 15 (1 : ℚ)) 0).2 (by with_unfolding_all rfl)⟩

/-! ## Historical-data ordering -/

theorem range_map_getD {α : Type} (l : List α) (d : α) :
    (List.range l.length).map (fun i => l.getD i d) = l := by
  induction l with
  | nil => rfl
  | cons a t ih =>
    rw [List.length_cons, List.range_succ_eq_map, List.map_cons, List.map_map]
    congr 1

theorem finnhub_data_timestamps (symbol interval : String) (resp : FinnhubCandles) :
    (getHistoricalDataFinnhub symbol interval resp).data.map Bar.timestamp =
      resp.t.map (fun x => x * 1000) := by
  simp only [getHistoricalDataFinnhub, List.map_map]
  conv_rhs => rw [← range_map_getD resp.t 0, List.map_map]
  rfl

theorem polygon_data_timestamps (symbol interval : String) (results : List PolygonAgg) :
    (getHistoricalDataPolygon symbol interval results).data.map Bar.timestamp =
      results.map PolygonAgg.t := by
  simp only [getHistoricalDataPolygon, List.map_map]
  rfl

theorem mergeSort_ts_pairwise (l : List Bar) :
    ((l.mergeSort (fun a b => decide (a.timestamp ≤ b.timestamp))).map Bar.timestamp).Pairwise
      (· ≤ ·) := by
  rw [List.pairwise_map]
  have h : (List.mergeSort l (fun a b : Bar => decide (a.timestamp ≤ b.timestamp))).Pairwise
      (fun a b : Bar => decide (a.timestamp ≤ b.timestamp) = true) :=
    List.sorted_mergeSort
      (fun a b c hab hbc => by
        simp only [decide_eq_true_eq] at hab hbc ⊢
        exact le_trans hab hbc)
      (fun a b => by simpa using le_total a.timestamp b.timestamp)
      l
  exact h.imp (fun hab => by simpa using hab)

theorem pairwise_lt_of_le_nodup (ls : List Int) (hle : ls.Pairwise (· ≤ ·))
    (hnd : ls.Nodup) : ls.Pairwise (· < ·) :=
  (hle.and hnd).imp (fun hab => lt_of_le_of_ne hab.1 hab.2)

theorem mergeSort_ts_strict (l : List Bar) (hnd : (l.map Bar.timestamp).Nodup) :
    ((l.mergeSort (fun a b => decide (a.timestamp ≤ b.timestamp))).map Bar.timestamp).Pairwise
      (· < ·) := by
  apply pairwise_lt_of_le_nodup _ (mergeSort_ts_pairwise l)
  have hperm := (List.mergeSort_perm l (fun a b : Bar => decide (a.timestamp ≤ b.timestamp))).map
    Bar.timestamp
  exact hperm.nodup_iff.mpr hnd

/-- C3 counterexample: a Finnhub payload whose candles arrive latest-first;
the returned series preserves that order, so its timestamps are not
strictly ascending, refuting the claim for the Finnhub adapter. -/
theorem historical_unsorted_finnhub_cex :
    (getHistoricalDataFinnhub "AAPL" "1d" fhCandlesCex).data.map Bar.timestamp =
      [2000, 1000] ∧
    ¬ ((getHistoricalDataFinnhub "AAPL" "1d" fhCandlesCex).data.map Bar.timestamp).Pairwise
      (fun a b : Int => a < b) :=
  ⟨by decide, by decide⟩

/-- C3 amended: only the Alpha Vantage adapter sorts: its returned series is
ascending by timestamp (strictly, whenever the parsed upstream timestamps
are pairwise distinct), while the Finnhub and Polygon adapters return bars
in upstream payload order — their output is ascending only when the
upstream payload already is (see the counterexample). -/
theorem historical_order_spec (symbol interval : String) (fromDate toDate : Int)
    (entries : List AVEntry) (resp : FinnhubCandles) (results : List PolygonAgg) :
    ((getHistoricalDataAlphaVantage symbol interval fromDate toDate entries).data.map
        Bar.timestamp).Pairwise (· ≤ ·) ∧
    ((entries.map AVEntry.date).Nodup →
      ((getHistoricalDataAlphaVantage symbol interval fromDate toDate entries).data.map
          Bar.timestamp).Pairwise (· < ·)) ∧
    ((getHistoricalDataFinnhub symbol interval resp).data.map Bar.timestamp =
      resp.t.map (fun x => x * 1000)) ∧
    ((getHistoricalDataPolygon symbol interval results).data.map Bar.timestamp =
      results.map PolygonAgg.t) := by
  refine ⟨?_, ?_, finnhub_data_timestamps symbol interval resp,
    polygon_data_timestamps symbol interval results⟩
  · simp only [getHistoricalDataAlphaVantage]
    exact mergeSort_ts_pairwise _
  · intro hnd
    simp only [getHistoricalDataAlphaVantage]
    apply mergeSort_ts_strict
    rw [List.map_map]
    exact hnd.sublist ((List.filter_sublist entries).map AVEntry.date)

/-- Witness for C3 on a three-entry Alpha Vantage payload delivered in
non-chronological order with distinct dates, and the concrete Finnhub
payload. -/
theorem historical_order_spec_witness :
    ((getHistoricalDataAlphaVantage "AAPL" "1d" 0 10 avEntriesW).data.map
        Bar.timestamp).Pairwise (· ≤ ·) ∧
    ((getHistoricalDataAlphaVantage "AAPL" "1d" 0 10 avEntriesW).data.map
        Bar.timestamp).Pairwise (· < ·) ∧
    (getHistoricalDataFinnhub "AAPL" "1d" fhCandlesCex).data.map Bar.timestamp =
      fhCandlesCex.t.map (fun x => x * 1000) :=
  ⟨(historical_order_spec "AAPL" "1d" 0 10 avEntriesW fhCandlesCex []).1,
   (historical_order_spec "AAPL" "1d" 0 10 avEntriesW fhCandlesCex []).2.1 (by decide),
   (historical_order_spec "AAPL" "1d" 0 10 avEntriesW fhCandlesCex []).2.2.1⟩

end MarketData

